import Mathlib

/-!
Shallow embedding of the Stock-Sense prediction core
(`src/Model/kse_hybrid_ensemble.py`, the ensemble variant, and
`src/stockSense-model/kse_stock_model.py`, the tabular-only variant).

Python floats are modelled as rationals (ℚ); pandas Series become `List ℚ`;
rolling windows with `min_periods=1` become trailing slices; the string-valued
`Regime` column and the signal action become inductive types.  The reasoning
strings built by `generate_signal` are modelled as an inductive tag list that
carries the interpolated numbers, dropping only the fixed surrounding text.
-/

/-- The epsilon `1e-10` used throughout the source to guard denominators. -/
def eps : ℚ := 1 / 10000000000

/-- Market regime labels produced by `detect_market_regime`. -/
inductive Regime where
  | Bull
  | Bear
  | Sideways
deriving DecidableEq

/-- Trading signal actions emitted by `generate_signal`. -/
inductive SigAction where
  | BUY
  | SELL
  | HOLD
deriving DecidableEq

/-- Reasoning fragments appended by `generate_signal`; each constructor stands for
one formatted string of the source, carrying the numbers it interpolates. -/
inductive Reason where
  | upward (predicted_return confidence : ℚ)
  | strongBullish
  | rsiOverbought
  | rsiElevated
  | weakBullish
  | downward (predicted_return confidence : ℚ)
  | strongBearish
  | rsiOversold
  | rsiDepressed
  | weakBearish
  | neutral (predicted_return : ℚ)
  | bullWait
  | bearWait
deriving DecidableEq

/-- The dict returned by `generate_signal`. -/
structure Signal where
  action : SigAction
  confidence : ℚ
  reasoning : List Reason
deriving DecidableEq

/-- One OHLCV bar of a `HistoricalSeries` (`opn` models the `Open` column). -/
structure Bar where
  opn : ℚ
  high : ℚ
  low : ℚ
  close : ℚ
  volume : ℚ
deriving DecidableEq

/-- HybridEnsemblePredictor.generate_signal (kse_hybrid_ensemble.py lines 599-666):
volatility-scaled thresholds, confidence gate 40, RSI ceilings 75/65 for BUY and
floors 25/35 for SELL, and a final `max(15, sig_conf)` on the returned confidence. -/
def generate_signal (predicted_return confidence rsi volatility : ℚ)
    (regime : Regime) : Signal :=
  let vol_pct := volatility * 100
  let buy_threshold := 1.2 + vol_pct * 0.4
  let sell_threshold := -1.2 - vol_pct * 0.4
  let res : SigAction × ℚ × List Reason :=
    if predicted_return > buy_threshold then
      if confidence > 40 then
        if predicted_return > buy_threshold * 2 then
          if rsi < 75 then
            (.BUY, min 95 (confidence + 5),
              [.upward predicted_return confidence, .strongBullish])
          else
            (.HOLD, confidence * 0.75,
              [.upward predicted_return confidence, .strongBullish, .rsiOverbought])
        else
          if rsi < 65 then
            (.BUY, confidence, [.upward predicted_return confidence])
          else
            (.HOLD, confidence * 0.85,
              [.upward predicted_return confidence, .rsiElevated])
      else
        (.HOLD, confidence, [.weakBullish])
    else if predicted_return < sell_threshold then
      if confidence > 40 then
        if predicted_return < sell_threshold * 2 then
          if rsi > 25 then
            (.SELL, min 95 (confidence + 5),
              [.downward predicted_return confidence, .strongBearish])
          else
            (.HOLD, confidence * 0.75,
              [.downward predicted_return confidence, .strongBearish, .rsiOversold])
        else
          if rsi > 35 then
            (.SELL, confidence, [.downward predicted_return confidence])
          else
            (.HOLD, confidence * 0.85,
              [.downward predicted_return confidence, .rsiDepressed])
      else
        (.HOLD, confidence, [.weakBearish])
    else
      (.HOLD, confidence * 0.6,
        Reason.neutral predicted_return ::
          (match regime with
            | .Bull => [.bullWait]
            | .Bear => [.bearWait]
            | .Sideways => []))
  { action := res.1, confidence := max 15 res.2.1, reasoning := res.2.2 }

/-- KSEStockPredictor.generate_signal (kse_stock_model.py lines 676-745): identical
to the ensemble variant except that the confidence gate is `> 38`. -/
def generate_signal_tab (predicted_return confidence rsi volatility : ℚ)
    (regime : Regime) : Signal :=
  let vol_pct := volatility * 100
  let buy_threshold := 1.2 + vol_pct * 0.4
  let sell_threshold := -1.2 - vol_pct * 0.4
  let res : SigAction × ℚ × List Reason :=
    if predicted_return > buy_threshold then
      if confidence > 38 then
        if predicted_return > buy_threshold * 2 then
          if rsi < 75 then
            (.BUY, min 95 (confidence + 5),
              [.upward predicted_return confidence, .strongBullish])
          else
            (.HOLD, confidence * 0.75,
              [.upward predicted_return confidence, .strongBullish, .rsiOverbought])
        else
          if rsi < 65 then
            (.BUY, confidence, [.upward predicted_return confidence])
          else
            (.HOLD, confidence * 0.85,
              [.upward predicted_return confidence, .rsiElevated])
      else
        (.HOLD, confidence, [.weakBullish])
    else if predicted_return < sell_threshold then
      if confidence > 38 then
        if predicted_return < sell_threshold * 2 then
          if rsi > 25 then
            (.SELL, min 95 (confidence + 5),
              [.downward predicted_return confidence, .strongBearish])
          else
            (.HOLD, confidence * 0.75,
              [.downward predicted_return confidence, .strongBearish, .rsiOversold])
        else
          if rsi > 35 then
            (.SELL, confidence, [.downward predicted_return confidence])
          else
            (.HOLD, confidence * 0.85,
              [.downward predicted_return confidence, .rsiDepressed])
      else
        (.HOLD, confidence, [.weakBearish])
    else
      (.HOLD, confidence * 0.6,
        Reason.neutral predicted_return ::
          (match regime with
            | .Bull => [.bullWait]
            | .Bear => [.bearWait]
            | .Sideways => []))
  { action := res.1, confidence := max 15 res.2.1, reasoning := res.2.2 }

/-- HybridEnsemblePredictor.calculate_confidence_ensemble (lines 451-497).
The three R² values stand for `metrics.get('lstm_r2'|'lgb_r2'|'xgb_r2', ...)`;
`_predicted_return` and `_rsi` are taken but unused, exactly as in the source. -/
def calculate_confidence_ensemble (_predicted_return volatility _rsi : ℚ)
    (regime : Regime) (ensemble_spread lstm_r2 lgb_r2 xgb_r2 : ℚ) : ℚ :=
  let avg_r2 := (lstm_r2 + lgb_r2 + xgb_r2) / 3
  let base_confidence :=
    if avg_r2 < 0 then 35
    else if avg_r2 < 0.1 then 45
    else if avg_r2 < 0.2 then 55
    else if avg_r2 < 0.3 then 65
    else min 85 (55 + avg_r2 * 80)
  let agreement_boost := (1 - min ensemble_spread 1) * 20
  let confidence := base_confidence + agreement_boost
  let vol_penalty :=
    if volatility < 0.005 then 0
    else if volatility < 0.015 then (-2 : ℚ)
    else if volatility < 0.03 then -5
    else -10
  let confidence := confidence + vol_penalty
  let confidence :=
    if regime = Regime.Bull then confidence + 2
    else if regime = Regime.Bear then confidence - 2
    else confidence
  max 25 (min 95 confidence)

/-- Reference confidence formula written from the specification text
(spec.md section 4.5 stage 5), to be compared with the source function. -/
def confidence_spec (lstm_r2 lgb_r2 xgb_r2 spread volatility : ℚ)
    (regime : Regime) : ℚ :=
  let avgR2 := (lstm_r2 + lgb_r2 + xgb_r2) / 3
  let base :=
    if avgR2 < 0 then 35
    else if avgR2 < 0.1 then 45
    else if avgR2 < 0.2 then 55
    else if avgR2 < 0.3 then 65
    else min 85 (55 + avgR2 * 80)
  let boost := (1 - min spread 1) * 20
  let penalty :=
    if volatility < 0.005 then 0
    else if volatility < 0.015 then (-2 : ℚ)
    else if volatility < 0.03 then -5
    else -10
  let adj : ℚ :=
    match regime with
    | .Bull => 2
    | .Bear => -2
    | .Sideways => 0
  max 25 (min 95 (base + boost + penalty + adj))

/-- KSEStockPredictor.calculate_confidence (kse_stock_model.py lines 588-674).
`r2` and `mape` stand for the stored `metrics['r2']` / `metrics['mape']`. -/
def calculate_confidence (predicted_return volatility rsi : ℚ) (regime : Regime)
    (r2 mape : ℚ) : ℚ :=
  let base_confidence :=
    if r2 < 0 then 30
    else if r2 < 0.05 then 38
    else if r2 < 0.1 then 45
    else if r2 < 0.15 then 52
    else if r2 < 0.2 then 58
    else if r2 < 0.3 then 65
    else if r2 < 0.5 then 72
    else min 90 (60 + r2 * 80)
  let mape_boost :=
    if mape < 1 then 25
    else if mape < 2 then 20
    else if mape < 5 then 15
    else if mape < 10 then 10
    else if mape < 15 then 5
    else if mape < 25 then 0
    else (-10 : ℚ)
  let confidence := base_confidence + mape_boost
  let regime_adjust : ℚ :=
    if regime = Regime.Bull then 3
    else if regime = Regime.Bear then -2
    else 0
  let confidence := confidence + regime_adjust
  let vol_penalty :=
    if volatility < 0.005 then 0
    else if volatility < 0.015 then (-2 : ℚ)
    else if volatility < 0.03 then -5
    else if volatility < 0.05 then -8
    else -15
  let confidence := confidence + vol_penalty
  let confidence := if rsi > 80 ∨ rsi < 20 then confidence - 3 else confidence
  let mag_adjust :=
    if |predicted_return| < 0.3 then 2
    else if |predicted_return| < 2 then 1
    else if |predicted_return| < 5 then 0
    else if |predicted_return| < 10 then (-5 : ℚ)
    else -15
  let confidence := confidence + mag_adjust
  max 20 (min 95 confidence)

/-- Ensemble disagreement metric of HybridEnsemblePredictor.predict (line 546):
`(max(preds) - min(preds)) / (mean(preds) + 1e-10)` over the three forecasts. -/
def ensemble_spread (lstm_pred lgb_pred xgb_pred : ℚ) : ℚ :=
  (max lstm_pred (max lgb_pred xgb_pred) - min lstm_pred (min lgb_pred xgb_pred)) /
    ((lstm_pred + lgb_pred + xgb_pred) / 3 + eps)

/-- Ensemble agreement reported in the prediction record (line 596):
`100 * (1 - min(ensemble_spread, 1))` (the display rounding to 2 decimals is omitted). -/
def ensemble_agreement (lstm_pred lgb_pred xgb_pred : ℚ) : ℚ :=
  100 * (1 - min (ensemble_spread lstm_pred lgb_pred xgb_pred) 1)

/-- Division with the zero-denominator event made explicit: `none` models the
division by zero that Python floats raise on (or that numpy turns into inf). -/
def safeDiv (a b : ℚ) : Option ℚ :=
  if b = 0 then none else some (a / b)

/-- High_Low_Range (line 254): `(High - Low) / Low`, no epsilon guard. -/
def high_low_range (high low : ℚ) : Option ℚ :=
  safeDiv (high - low) low

/-- Close_Position (line 255): `(Close - Low) / (High - Low + 1e-10)`. -/
def close_position (close high low : ℚ) : Option ℚ :=
  safeDiv (close - low) (high - low + eps)

/-- Open_Close_Ratio (line 256): `(Close - Open) / (Open + 1e-10)`. -/
def open_close_frac (close opn : ℚ) : Option ℚ :=
  safeDiv (close - opn) (opn + eps)

/-- High_Close_Ratio (line 257): `(High - Close) / Close`, no epsilon guard. -/
def high_close_frac (high close : ℚ) : Option ℚ :=
  safeDiv (high - close) close

/-- Low_Close_Ratio (line 258): `(Close - Low) / Close`, no epsilon guard. -/
def low_close_frac (close low : ℚ) : Option ℚ :=
  safeDiv (close - low) close

/-- predicted_return of HybridEnsemblePredictor.predict (line 538):
`(ensemble_pred - current_price) / current_price * 100`, no epsilon guard. -/
def predicted_return_div (ensemble_pred current_price : ℚ) : Option ℚ :=
  (safeDiv (ensemble_pred - current_price) current_price).map (fun x => x * 100)

/-- Returns (line 174) and Annual_Return (line 159): `Close.pct_change(n)` at
one row is `(cur - prev) / prev`, dividing by the close `n` rows earlier with
no epsilon guard. -/
def pct_change_div (prev cur : ℚ) : Option ℚ :=
  safeDiv (cur - prev) prev

/-- Log_Returns (line 175): the argument of `np.log(Close / Close.shift(1))`
divides by the previous close with no epsilon guard. -/
def log_return_arg (prev cur : ℚ) : Option ℚ :=
  safeDiv cur prev

/-- BB_20/50_Squeeze (line 238): `BB_Width / (Close * 0.02)`, no epsilon
guard on the raw close price. -/
def bb_squeeze (width close : ℚ) : Option ℚ :=
  safeDiv width (close * 0.02)

/-- Trailing rolling window ending at index `i` (inclusive), at most `w` wide:
the slice a pandas `rolling(window=w, min_periods=1)` aggregates at row `i`. -/
def windowSlice (w : ℕ) (xs : List ℚ) (i : ℕ) : List ℚ :=
  (xs.take (i + 1)).drop (i + 1 - w)

/-- Arithmetic mean of a list (0 on the empty list, which never arises below). -/
def listMean (xs : List ℚ) : ℚ :=
  xs.sum / xs.length

/-- Pandas `Series.rolling(window=w, min_periods=1).mean()` on a list. -/
def rollingMean (w : ℕ) (xs : List ℚ) : List ℚ :=
  (List.range xs.length).map (fun i => listMean (windowSlice w xs i))

/-- Minimum of a list (0 on the empty list). -/
def listMin : List ℚ → ℚ
  | [] => 0
  | x :: xs => xs.foldl min x

/-- Maximum of a list (0 on the empty list). -/
def listMax : List ℚ → ℚ
  | [] => 0
  | x :: xs => xs.foldl max x

/-- Gain series of calculate_rsi (line 299): `delta.where(delta > 0, 0)` with the
leading `diff()` NaN masked to 0, exactly as `where` does on a NaN condition. -/
def gains : List ℚ → List ℚ
  | [] => []
  | p :: ps =>
      0 :: List.zipWith (fun prev cur => if cur - prev > 0 then cur - prev else 0)
        (p :: ps) ps

/-- Loss series of calculate_rsi (line 300): `-delta.where(delta < 0, 0)`. -/
def losses : List ℚ → List ℚ
  | [] => []
  | p :: ps =>
      0 :: List.zipWith (fun prev cur => if cur - prev < 0 then -(cur - prev) else 0)
        (p :: ps) ps

/-- HybridEnsemblePredictor.calculate_rsi (lines 296-303); identical in
KSEStockPredictor.calculate_rsi.  With `min_periods=1` no output is NaN, so the
trailing `.fillna(50)` of the source is a no-op and is not modelled. -/
def calculate_rsi (period : ℕ) (prices : List ℚ) : List ℚ :=
  List.zipWith (fun g l => 100 - 100 / (1 + g / (l + eps)))
    (rollingMean period (gains prices)) (rollingMean period (losses prices))

/-- The %K line of calculate_stochastic (lines 305-311):
`100 * (prices - rolling_min) / (rolling_max - rolling_min + 1e-10)`. -/
def calculate_stochastic_k (period : ℕ) (prices : List ℚ) : List ℚ :=
  (List.range prices.length).map (fun i =>
    100 * (prices.getD i 0 - listMin (windowSlice period prices i)) /
      (listMax (windowSlice period prices i) - listMin (windowSlice period prices i) + eps))

/-- The %D line of calculate_stochastic: 3-period rolling mean of %K. -/
def calculate_stochastic_d (period : ℕ) (prices : List ℚ) : List ℚ :=
  rollingMean 3 (calculate_stochastic_k period prices)

/-- True range series of calculate_atr (lines 313-321): rowwise max of
high-low, |high-prevclose|, |low-prevclose|; on the first row the shifted
close is NaN and pandas `max(axis=1)` skips it, leaving high-low. -/
def true_range : List Bar → List ℚ
  | [] => []
  | b :: bs =>
      (b.high - b.low) ::
        List.zipWith (fun prev cur =>
          max (cur.high - cur.low) (max |cur.high - prev.close| |cur.low - prev.close|))
          (b :: bs) bs

/-- calculate_atr: rolling mean of the true range. -/
def calculate_atr (period : ℕ) (bars : List Bar) : List ℚ :=
  rollingMean period (true_range bars)

/-- Plus directional movement of calculate_adx (line 343); the first row's NaN
diffs fail the `>` comparisons, giving 0. -/
def plus_dm : List Bar → List ℚ
  | [] => []
  | b :: bs =>
      0 :: List.zipWith (fun prev cur =>
        if cur.high - prev.high > prev.low - cur.low ∧ cur.high - prev.high > 0 then
          cur.high - prev.high
        else 0) (b :: bs) bs

/-- Minus directional movement of calculate_adx (line 344). -/
def minus_dm : List Bar → List ℚ
  | [] => []
  | b :: bs =>
      0 :: List.zipWith (fun prev cur =>
        if prev.low - cur.low > cur.high - prev.high ∧ prev.low - cur.low > 0 then
          prev.low - cur.low
        else 0) (b :: bs) bs

/-- HybridEnsemblePredictor.calculate_adx (lines 338-354); identical in the
tabular variant.  As with RSI, `min_periods=1` makes `.fillna(50)` a no-op. -/
def calculate_adx (period : ℕ) (bars : List Bar) : List ℚ :=
  let atr := calculate_atr period bars
  let plus_di := List.zipWith (fun m a => 100 * m / (a + eps))
    (rollingMean period (plus_dm bars)) atr
  let minus_di := List.zipWith (fun m a => 100 * m / (a + eps))
    (rollingMean period (minus_dm bars)) atr
  let dx := List.zipWith (fun p m => 100 * |p - m| / (p + m + eps)) plus_di minus_di
  rollingMean period dx

/-- Pandas `Series.pct_change(n).fillna(0)` on the close column: the first `n`
rows are NaN and are filled with 0, merging the `.fillna(0)` of line 159. -/
def pct_change_n (n : ℕ) (xs : List ℚ) : List ℚ :=
  (List.range xs.length).map (fun i =>
    if n ≤ i then xs.getD i 0 / xs.getD (i - n) 1 - 1 else 0)

/-- Regime column of HybridEnsemblePredictor.detect_market_regime (lines 155-166);
the function body is line-identical in KSEStockPredictor.detect_market_regime
(kse_stock_model.py lines 85-102).  The column starts as Sideways, then the
`> 0.1` mask assigns Bull, then the `< -0.1` mask assigns Bear.  The unused
Returns and Annual_Volatility columns are not modelled. -/
def detect_market_regime (window : ℕ) (closes : List ℚ) : List Regime :=
  let annual_return := pct_change_n window closes
  let r0 := annual_return.map (fun _ => Regime.Sideways)
  let r1 := List.zipWith (fun a r => if a > 0.1 then Regime.Bull else r) annual_return r0
  List.zipWith (fun a r => if a < -0.1 then Regime.Bear else r) annual_return r1

/-- Reference regime classifier written from the claim text: Bull exactly when
the trailing `window`-day return exceeds 0.10, Bear exactly when it is below
-0.10, Sideways otherwise (including the warm-up rows with no trailing return). -/
def regime_spec (window : ℕ) (closes : List ℚ) : List Regime :=
  (List.range closes.length).map (fun i =>
    if window ≤ i then
      let tr := closes.getD i 0 / closes.getD (i - window) 1 - 1
      if tr > 0.1 then Regime.Bull
      else if tr < -0.1 then Regime.Bear
      else Regime.Sideways
    else Regime.Sideways)

/-- Fitted MinMaxScaler of the LSTM path, modelled by its two pure maps
(`transform` applied elementwise, and `inverse_transform`). -/
structure MinMaxScalerT where
  transform : ℚ → ℚ
  invTransform : ℚ → ℚ

/-- Per-ticker entry of `self.models`: the three trained sub-models (modelled as
the pure forecast functions they implement), the ensemble weight triple, and the
stored metrics record (`lstm_r2`/`lgb_r2`/`xgb_r2`, as read through
`metrics.get` in predict and calculate_confidence_ensemble). -/
structure ModelBundle where
  lstm : List ℚ → ℚ
  lgb : List ℚ → ℚ
  xgb : List ℚ → ℚ
  ensemble_weights : ℚ × ℚ × ℚ
  lstm_r2 : ℚ
  lgb_r2 : ℚ
  xgb_r2 : ℚ

/-- The mutable attributes of HybridEnsemblePredictor that predict touches:
`models`, `data_dict`, `scalers` (StandardScaler.transform as a pure map on the
feature row), `lstm_scalers`, and `feature_cols` (overwritten by
prepare_features on every call, line 416). -/
structure PredictorState where
  models : String → Option ModelBundle
  data_dict : String → Option (List Bar)
  scalers : String → Option (List ℚ → List ℚ)
  lstm_scalers : String → Option MinMaxScalerT
  feature_cols : List String

/-- The prediction record returned by HybridEnsemblePredictor.predict
(lines 564-597).  Display rounding, date formatting and the MACD/Bollinger
snapshot entries (further pure functions of the same history, whose rolling
standard deviations are irrational) are omitted; every retained field is the
exact unrounded value the source computes. -/
structure PredictionRecord where
  ticker : String
  current_price : ℚ
  predicted_price : ℚ
  predicted_return : ℚ
  signal : SigAction
  confidence : ℚ
  reasoning : List Reason
  rsi_14 : ℚ
  volatility : ℚ
  market_regime : Regime
  adx : ℚ
  lstm : ℚ
  lightgbm : ℚ
  xgboost : ℚ
  lstm_r2 : ℚ
  lgb_r2 : ℚ
  xgb_r2 : ℚ
  ensemble_agreement : ℚ
deriving DecidableEq

/-- HybridEnsemblePredictor.predict (lines 499-597) as a state transformer.
`none` models the ValueError/KeyError raised when the ticker has no model, data
or scaler, or the data is empty.  The numeric kernels that are opaque library
calls or irrational (sub-model inference, scaler transforms, the feature row
and feature-column list built by prepare_features, and the 20-day rolling
standard deviation `Volatility_20`) are passed as pure functions; everything
else (RSI-14, regime, ADX, ensemble vote, spread, confidence, signal) is
computed by the embedded definitions above.  The returned state records the
single mutation predict performs: prepare_features overwriting
`self.feature_cols` (line 416). -/
def predict (featuresOf : List Bar → List ℚ) (featureColsOf : List Bar → List String)
    (volOf : List Bar → ℚ) (s : PredictorState) (ticker : String) :
    Option (PredictionRecord × PredictorState) :=
  match s.models ticker with
  | none => none
  | some bundle =>
    match s.data_dict ticker with
    | none => none
    | some df =>
      match s.lstm_scalers ticker with
      | none => none
      | some mm =>
        match s.scalers ticker with
        | none => none
        | some sc =>
          if df.isEmpty then none
          else
            let closes := df.map Bar.close
            let current_price := closes.getLastD 0
            let lstm_window := (closes.drop (closes.length - 60)).map mm.transform
            let lstm_pred := mm.invTransform (bundle.lstm lstm_window)
            let feats := sc (featuresOf df)
            let lgb_pred := bundle.lgb feats
            let xgb_pred := bundle.xgb feats
            let ensemble_pred := bundle.ensemble_weights.1 * lstm_pred +
              bundle.ensemble_weights.2.1 * lgb_pred +
              bundle.ensemble_weights.2.2 * xgb_pred
            let pred_return := (ensemble_pred - current_price) / current_price * 100
            let spread := ensemble_spread lstm_pred lgb_pred xgb_pred
            let rsi := (calculate_rsi 14 closes).getLastD 50
            let volatility := volOf df
            let regime := (detect_market_regime 252 closes).getLastD Regime.Sideways
            let confidence := calculate_confidence_ensemble pred_return volatility rsi
              regime spread bundle.lstm_r2 bundle.lgb_r2 bundle.xgb_r2
            let sig := generate_signal pred_return confidence rsi volatility regime
            some
              ({ ticker := ticker
                 current_price := current_price
                 predicted_price := ensemble_pred
                 predicted_return := pred_return
                 signal := sig.action
                 confidence := sig.confidence
                 reasoning := sig.reasoning
                 rsi_14 := rsi
                 volatility := volatility
                 market_regime := regime
                 adx := (calculate_adx 14 df).getLastD 50
                 lstm := lstm_pred
                 lightgbm := lgb_pred
                 xgboost := xgb_pred
                 lstm_r2 := bundle.lstm_r2
                 lgb_r2 := bundle.lgb_r2
                 xgb_r2 := bundle.xgb_r2
                 ensemble_agreement := 100 * (1 - min spread 1) },
               { s with feature_cols := featureColsOf df })

/-- One entry of the mapping returned by predict_all: a prediction record, or
the ticker/error-message dict built when predict raises. -/
inductive PredEntry where
  | ok (record : PredictionRecord)
  | failure (ticker error : String)
deriving DecidableEq

/-- HybridEnsemblePredictor.predict_all (lines 668-676); line-identical in
KSEStockPredictor.predict_all (kse_stock_model.py lines 747-755).  `predictFn`
stands for `self.predict`, which either returns a record or raises with a
message; `tickers` is `sorted(self.models.keys())`.  The try/except of the
source captures the exception into an error entry and continues. -/
def predict_all (predictFn : String → Except String PredictionRecord)
    (tickers : List String) : List (String × PredEntry) :=
  tickers.map (fun t =>
    (t, match predictFn t with
        | .ok r => PredEntry.ok r
        | .error e => PredEntry.failure t e))

/-- A two-bar series whose first bar has High < Low (High 0, Low 100), used to
evaluate calculate_adx outside its documented range. -/
def cexBars : List Bar :=
  [{ opn := 0, high := 0, low := 100, close := 0, volume := 0 },
   { opn := 0, high := 10, low := 0, close := 0, volume := 0 }]

/-- A concrete trained bundle with constant-zero sub-models and the default
metric values of the source. -/
def wBundle : ModelBundle :=
  { lstm := fun _ => 0, lgb := fun _ => 0, xgb := fun _ => 0,
    ensemble_weights := (0.35, 0.35, 0.30),
    lstm_r2 := 0.15, lgb_r2 := 0.18, xgb_r2 := 0.17 }

/-- A concrete flat bar. -/
def wBar : Bar := { opn := 1, high := 1, low := 1, close := 1, volume := 1 }

/-- A concrete predictor state with one trained ticker. -/
def wState : PredictorState :=
  { models := fun t => if t = "A" then some wBundle else none,
    data_dict := fun t => if t = "A" then some [wBar] else none,
    scalers := fun t => if t = "A" then some (fun x => x) else none,
    lstm_scalers := fun t => if t = "A" then some ⟨fun x => x, fun x => x⟩ else none,
    feature_cols := [] }

/-- Concrete feature-row kernel: empty feature row. -/
def wFeaturesOf : List Bar → List ℚ := fun _ => []

/-- Concrete feature-column kernel. -/
def wFeatureColsOf : List Bar → List String := fun _ => ["f0"]

/-- Concrete volatility kernel: constant zero. -/
def wVolOf : List Bar → ℚ := fun _ => 0

/-- The record predict returns on `wState` for ticker A. -/
def wRec : PredictionRecord :=
  { ticker := "A", current_price := 1, predicted_price := 0, predicted_return := -100,
    signal := .HOLD, confidence := 225 / 4,
    reasoning := [.downward (-100) 75, .strongBearish, .rsiOversold],
    rsi_14 := 0, volatility := 0, market_regime := .Sideways, adx := 0,
    lstm := 0, lightgbm := 0, xgboost := 0,
    lstm_r2 := 0.15, lgb_r2 := 0.18, xgb_r2 := 0.17, ensemble_agreement := 100 }

/-- The state after one predict call on `wState`: only feature_cols changed. -/
def wState1 : PredictorState := { wState with feature_cols := ["f0"] }

/-! Theorems.  Helper lemmas come first; each claim of the specification audit
is settled by exactly one theorem below. -/

theorem generate_signal_action_eq (pr conf rsi vol : ℚ) (regime : Regime) :
    (generate_signal pr conf rsi vol regime).action =
      (if pr > 1.2 + vol * 100 * 0.4 then
        if conf > 40 then
          if pr > (1.2 + vol * 100 * 0.4) * 2 then
            if rsi < 75 then .BUY else .HOLD
          else
            if rsi < 65 then .BUY else .HOLD
        else .HOLD
      else if pr < -1.2 - vol * 100 * 0.4 then
        if conf > 40 then
          if pr < (-1.2 - vol * 100 * 0.4) * 2 then
            if rsi > 25 then .SELL else .HOLD
          else
            if rsi > 35 then .SELL else .HOLD
        else .HOLD
      else .HOLD) := by
  unfold generate_signal
  dsimp only
  split_ifs <;> rfl

theorem generate_signal_conf_eq (pr conf rsi vol : ℚ) (regime : Regime) :
    (generate_signal pr conf rsi vol regime).confidence =
      (if pr > 1.2 + vol * 100 * 0.4 then
        if conf > 40 then
          if pr > (1.2 + vol * 100 * 0.4) * 2 then
            if rsi < 75 then max 15 (min 95 (conf + 5)) else max 15 (conf * 0.75)
          else
            if rsi < 65 then max 15 conf else max 15 (conf * 0.85)
        else max 15 conf
      else if pr < -1.2 - vol * 100 * 0.4 then
        if conf > 40 then
          if pr < (-1.2 - vol * 100 * 0.4) * 2 then
            if rsi > 25 then max 15 (min 95 (conf + 5)) else max 15 (conf * 0.75)
          else
            if rsi > 35 then max 15 conf else max 15 (conf * 0.85)
        else max 15 conf
      else max 15 (conf * 0.6)) := by
  unfold generate_signal
  dsimp only
  split_ifs <;> rfl

theorem generate_signal_tab_action_eq (pr conf rsi vol : ℚ) (regime : Regime) :
    (generate_signal_tab pr conf rsi vol regime).action =
      (if pr > 1.2 + vol * 100 * 0.4 then
        if conf > 38 then
          if pr > (1.2 + vol * 100 * 0.4) * 2 then
            if rsi < 75 then .BUY else .HOLD
          else
            if rsi < 65 then .BUY else .HOLD
        else .HOLD
      else if pr < -1.2 - vol * 100 * 0.4 then
        if conf > 38 then
          if pr < (-1.2 - vol * 100 * 0.4) * 2 then
            if rsi > 25 then .SELL else .HOLD
          else
            if rsi > 35 then .SELL else .HOLD
        else .HOLD
      else .HOLD) := by
  unfold generate_signal_tab
  dsimp only
  split_ifs <;> rfl

theorem generate_signal_tab_conf_eq (pr conf rsi vol : ℚ) (regime : Regime) :
    (generate_signal_tab pr conf rsi vol regime).confidence =
      (if pr > 1.2 + vol * 100 * 0.4 then
        if conf > 38 then
          if pr > (1.2 + vol * 100 * 0.4) * 2 then
            if rsi < 75 then max 15 (min 95 (conf + 5)) else max 15 (conf * 0.75)
          else
            if rsi < 65 then max 15 conf else max 15 (conf * 0.85)
        else max 15 conf
      else if pr < -1.2 - vol * 100 * 0.4 then
        if conf > 38 then
          if pr < (-1.2 - vol * 100 * 0.4) * 2 then
            if rsi > 25 then max 15 (min 95 (conf + 5)) else max 15 (conf * 0.75)
          else
            if rsi > 35 then max 15 conf else max 15 (conf * 0.85)
        else max 15 conf
      else max 15 (conf * 0.6)) := by
  unfold generate_signal_tab
  dsimp only
  split_ifs <;> rfl

theorem generate_signal_conf_bounds (pr conf rsi vol : ℚ) (regime : Regime)
    (h : conf ≤ 95) :
    15 ≤ (generate_signal pr conf rsi vol regime).confidence ∧
      (generate_signal pr conf rsi vol regime).confidence ≤ 95 := by
  rw [generate_signal_conf_eq]
  split_ifs <;>
    exact ⟨le_max_left _ _, max_le (by norm_num) (by first | exact min_le_left _ _ | linarith)⟩

theorem generate_signal_tab_conf_bounds (pr conf rsi vol : ℚ) (regime : Regime)
    (h : conf ≤ 95) :
    15 ≤ (generate_signal_tab pr conf rsi vol regime).confidence ∧
      (generate_signal_tab pr conf rsi vol regime).confidence ≤ 95 := by
  rw [generate_signal_tab_conf_eq]
  split_ifs <;>
    exact ⟨le_max_left _ _, max_le (by norm_num) (by first | exact min_le_left _ _ | linarith)⟩

/-- C1 (counterexample): the tabular-only generate_signal emits BUY at
confidence 39, which is not greater than 40 — the claimed gate `confidence > 40`
does not hold for the tabular variant (its gate is `> 38`). -/
theorem C1_tab_buy_at_conf_39 :
    (generate_signal_tab 2 39 50 0 .Sideways).action = .BUY ∧ ¬((39 : ℚ) > 40) := by
  rw [generate_signal_tab_action_eq]
  norm_num

/-- C1 (amended): in both variants, BUY is emitted only when the predicted
return exceeds the volatility-scaled buy threshold `1.2 + volatility_pct*0.4`,
the confidence gate passes (strictly above 40 in the ensemble variant, strictly
above 38 in the tabular-only variant) and RSI is below the applicable ceiling
(75 on the strong branch, 65 otherwise); SELL only under the mirrored
conditions (floor 25/35); and whenever neither condition set holds the action
is HOLD. -/
theorem C1_signal_gate_amended (pr conf rsi vol : ℚ) (regime : Regime) :
    (((generate_signal pr conf rsi vol regime).action = .BUY →
        pr > 1.2 + vol * 100 * 0.4 ∧ conf > 40 ∧
          rsi < (if pr > (1.2 + vol * 100 * 0.4) * 2 then 75 else 65)) ∧
      ((generate_signal pr conf rsi vol regime).action = .SELL →
        pr < -1.2 - vol * 100 * 0.4 ∧ conf > 40 ∧
          rsi > (if pr < (-1.2 - vol * 100 * 0.4) * 2 then 25 else 35)) ∧
      (¬(pr > 1.2 + vol * 100 * 0.4 ∧ conf > 40 ∧
          rsi < (if pr > (1.2 + vol * 100 * 0.4) * 2 then 75 else 65)) →
        ¬(pr < -1.2 - vol * 100 * 0.4 ∧ conf > 40 ∧
          rsi > (if pr < (-1.2 - vol * 100 * 0.4) * 2 then 25 else 35)) →
        (generate_signal pr conf rsi vol regime).action = .HOLD)) ∧
    (((generate_signal_tab pr conf rsi vol regime).action = .BUY →
        pr > 1.2 + vol * 100 * 0.4 ∧ conf > 38 ∧
          rsi < (if pr > (1.2 + vol * 100 * 0.4) * 2 then 75 else 65)) ∧
      ((generate_signal_tab pr conf rsi vol regime).action = .SELL →
        pr < -1.2 - vol * 100 * 0.4 ∧ conf > 38 ∧
          rsi > (if pr < (-1.2 - vol * 100 * 0.4) * 2 then 25 else 35)) ∧
      (¬(pr > 1.2 + vol * 100 * 0.4 ∧ conf > 38 ∧
          rsi < (if pr > (1.2 + vol * 100 * 0.4) * 2 then 75 else 65)) →
        ¬(pr < -1.2 - vol * 100 * 0.4 ∧ conf > 38 ∧
          rsi > (if pr < (-1.2 - vol * 100 * 0.4) * 2 then 25 else 35)) →
        (generate_signal_tab pr conf rsi vol regime).action = .HOLD)) := by
  constructor
  · simp only [generate_signal_action_eq]
    split_ifs <;> simp_all
  · simp only [generate_signal_tab_action_eq]
    split_ifs <;> simp_all

/-- C1 (witness): a concrete ensemble BUY satisfying the gate conditions. -/
theorem C1_signal_gate_amended_witness :
    (2 : ℚ) > 1.2 + 0 * 100 * 0.4 ∧ (50 : ℚ) > 40 ∧
      (50 : ℚ) < (if (2 : ℚ) > (1.2 + 0 * 100 * 0.4) * 2 then 75 else 65) :=
  (C1_signal_gate_amended 2 50 50 0 .Sideways).1.1
    (by rw [generate_signal_action_eq]; norm_num)

set_option maxHeartbeats 1000000 in
/-- C3: the ensemble confidence scorer equals, for every combination of
sub-model R² values, spread, 20-day volatility and regime, the reference
step-function definition read off the specification (base from average R²,
agreement boost, volatility penalty, regime adjustment, clamp to [25,95]). -/
theorem C3_confidence_eq_spec (pr vol rsi spread lstm_r2 lgb_r2 xgb_r2 : ℚ)
    (regime : Regime) :
    calculate_confidence_ensemble pr vol rsi regime spread lstm_r2 lgb_r2 xgb_r2 =
      confidence_spec lstm_r2 lgb_r2 xgb_r2 spread vol regime := by
  unfold calculate_confidence_ensemble confidence_spec
  cases regime <;> norm_num <;> split_ifs <;>
    first
      | exact absurd rfl (by assumption)
      | exact False.elim (by assumption)
      | ring_nf

theorem calculate_confidence_ensemble_bounds (pr vol rsi spread l g x : ℚ)
    (regime : Regime) :
    25 ≤ calculate_confidence_ensemble pr vol rsi regime spread l g x ∧
      calculate_confidence_ensemble pr vol rsi regime spread l g x ≤ 95 := by
  unfold calculate_confidence_ensemble
  dsimp only
  exact ⟨le_max_left _ _, max_le (by norm_num) (min_le_left _ _)⟩

theorem calculate_confidence_bounds (pr vol rsi r2 mape : ℚ) (regime : Regime) :
    20 ≤ calculate_confidence pr vol rsi regime r2 mape ∧
      calculate_confidence pr vol rsi regime r2 mape ≤ 95 := by
  unfold calculate_confidence
  dsimp only
  exact ⟨le_max_left _ _, max_le (by norm_num) (min_le_left _ _)⟩

/-- C2 (counterexample): the confidence placed in the returned prediction
record is the generate_signal output, and on a HOLD it can be 15 — below the
claimed lower clamps of 25 (ensemble) and 20 (tabular-only). -/
theorem C2_record_confidence_cex :
    ((generate_signal 0
        (calculate_confidence_ensemble 0 0.05 50 .Bear 2 (-1) (-1) (-1))
        50 0.05 .Bear).confidence = 15 ∧ ¬((25 : ℚ) ≤ 15)) ∧
    ((generate_signal_tab 0
        (calculate_confidence 0 0.06 50 .Bear (-1) 30)
        50 0.06 .Bear).confidence = 15 ∧ ¬((20 : ℚ) ≤ 15)) := by
  have hbull : (Regime.Bear = Regime.Bull) = False := by simp
  have hbear : (Regime.Bear = Regime.Bear) = True := by simp
  have h1 : calculate_confidence_ensemble 0 0.05 50 .Bear 2 (-1) (-1) (-1) = 25 := by
    norm_num [calculate_confidence_ensemble, max_def, min_def, hbull, hbear]
  have h2 : calculate_confidence 0 0.06 50 .Bear (-1) 30 = 20 := by
    norm_num [calculate_confidence, max_def, min_def, hbull, hbear]
  rw [h1, h2, generate_signal_conf_eq, generate_signal_tab_conf_eq]
  norm_num [max_def]

/-- C2 (amended): the confidence scorers themselves are clamped to [25,95]
(ensemble) and [20,95] (tabular-only) for all inputs, and the confidence that
reaches the prediction record — the generate_signal output fed with the scorer
value — always lies in [15,95]. -/
theorem C2_confidence_clamp_amended (pr vol rsi spread l g x r2 mape : ℚ)
    (regime : Regime) :
    (25 ≤ calculate_confidence_ensemble pr vol rsi regime spread l g x ∧
      calculate_confidence_ensemble pr vol rsi regime spread l g x ≤ 95) ∧
    (20 ≤ calculate_confidence pr vol rsi regime r2 mape ∧
      calculate_confidence pr vol rsi regime r2 mape ≤ 95) ∧
    (15 ≤ (generate_signal pr
        (calculate_confidence_ensemble pr vol rsi regime spread l g x)
        rsi vol regime).confidence ∧
      (generate_signal pr
        (calculate_confidence_ensemble pr vol rsi regime spread l g x)
        rsi vol regime).confidence ≤ 95) ∧
    (15 ≤ (generate_signal_tab pr
        (calculate_confidence pr vol rsi regime r2 mape)
        rsi vol regime).confidence ∧
      (generate_signal_tab pr
        (calculate_confidence pr vol rsi regime r2 mape)
        rsi vol regime).confidence ≤ 95) :=
  ⟨calculate_confidence_ensemble_bounds pr vol rsi spread l g x regime,
   calculate_confidence_bounds pr vol rsi r2 mape regime,
   generate_signal_conf_bounds pr _ rsi vol regime
     (calculate_confidence_ensemble_bounds pr vol rsi spread l g x regime).2,
   generate_signal_tab_conf_bounds pr _ rsi vol regime
     (calculate_confidence_bounds pr vol rsi r2 mape regime).2⟩

/-- C4 (counterexample): when the three sub-model forecasts are all negative the
forecast mean is negative, the spread is negative, and the reported
ensemble_agreement exceeds 100 — so agreement does not always lie in [0,100]. -/
theorem C4_agreement_cex : ensemble_agreement (-1) (-2) (-3) > 100 := by
  norm_num [ensemble_agreement, ensemble_spread, eps, max_def, min_def]

/-- C4 (amended): ensemble_agreement is 100·(1−min(spread,1)) with
spread = (max−min)/(mean+1e-10) by construction; equal positive forecasts give
agreement exactly 100, and the agreement lies in [0,100] whenever all three
forecasts are nonnegative (the bound can fail when the mean is negative). -/
theorem C4_agreement_amended (a b c : ℚ) :
    (a = b → b = c → 0 < a → ensemble_agreement a b c = 100) ∧
    (0 ≤ a → 0 ≤ b → 0 ≤ c →
      0 ≤ ensemble_agreement a b c ∧ ensemble_agreement a b c ≤ 100) := by
  constructor
  · rintro rfl rfl ha
    simp [ensemble_agreement, ensemble_spread, max_self, min_self]
  · intro ha hb hc
    have he : (0 : ℚ) < eps := by norm_num [eps]
    have hd : 0 < (a + b + c) / 3 + eps := by
      have h3 : (0 : ℚ) ≤ (a + b + c) / 3 := by
        apply div_nonneg (by linarith) (by norm_num)
      linarith
    have hnum : 0 ≤ max a (max b c) - min a (min b c) := by
      have h1 : min a (min b c) ≤ a := min_le_left _ _
      have h2 : a ≤ max a (max b c) := le_max_left _ _
      linarith
    have hs : 0 ≤ ensemble_spread a b c := by
      unfold ensemble_spread
      exact div_nonneg hnum (le_of_lt hd)
    have hm1 : 0 ≤ min (ensemble_spread a b c) 1 := le_min hs (by norm_num)
    have hm2 : min (ensemble_spread a b c) 1 ≤ 1 := min_le_right _ _
    unfold ensemble_agreement
    constructor <;> linarith

/-- C4 (witness): equal forecasts give agreement 100; a nonnegative triple has
agreement in [0,100]. -/
theorem C4_agreement_amended_witness :
    ensemble_agreement 1 1 1 = 100 ∧
      (0 ≤ ensemble_agreement 1 2 3 ∧ ensemble_agreement 1 2 3 ≤ 100) :=
  ⟨(C4_agreement_amended 1 1 1).1 rfl rfl (by norm_num),
   (C4_agreement_amended 1 2 3).2 (by norm_num) (by norm_num) (by norm_num)⟩

/-- C5 (counterexample): two divisions of the pipeline have no epsilon guard:
High_Low_Range divides by the raw Low price and the predicted-return formula
divides by the raw current price; at price 0 both divide by zero. -/
theorem C5_division_cex :
    high_low_range 1 0 = none ∧ predicted_return_div 5 0 = none := by
  constructor <;> simp [high_low_range, predicted_return_div, safeDiv]

/-- C5 (amended): every epsilon-guarded denominator of the pipeline has the
form `x + 1e-10` and is nonzero whenever the guarded quantity x is nonnegative
(so, e.g., Close_Position is division-safe on bars with Low ≤ High and
Open_Close_Ratio with nonnegative Open; a guarded denominator can still vanish
at x = -1e-10 exactly).  But the pipeline also divides with no guard at all:
High_Low_Range, High_Close_Ratio, Low_Close_Ratio, Returns and Annual_Return
(pct_change), Log_Returns, BB_Squeeze, and the predicted-return formula divide
by a raw price (or price·0.02), and each is division-by-zero-free only when
that price is nonzero. -/
theorem C5_division_guards_amended (x high low close opn cp e prev cur width : ℚ) :
    (0 ≤ x → x + eps ≠ 0) ∧
    (low ≤ high → (close_position close high low).isSome) ∧
    (0 ≤ opn → (open_close_frac close opn).isSome) ∧
    (low ≠ 0 → (high_low_range high low).isSome) ∧
    (close ≠ 0 →
      (high_close_frac high close).isSome ∧ (low_close_frac close low).isSome ∧
        (bb_squeeze width close).isSome) ∧
    (prev ≠ 0 →
      (pct_change_div prev cur).isSome ∧ (log_return_arg prev cur).isSome) ∧
    (cp ≠ 0 → (predicted_return_div e cp).isSome) := by
  have he : (0 : ℚ) < eps := by norm_num [eps]
  refine ⟨fun h => ?_, fun h => ?_, fun h => ?_, fun h => ?_, fun h => ?_,
    fun h => ?_, fun h => ?_⟩
  · have hd : 0 < x + eps := by linarith
    exact ne_of_gt hd
  · have hd : 0 < high - low + eps := by linarith
    simp [close_position, safeDiv, ne_of_gt hd]
  · have hd : 0 < opn + eps := by linarith
    simp [open_close_frac, safeDiv, ne_of_gt hd]
  · simp [high_low_range, safeDiv, h]
  · have h2 : close * 0.02 ≠ 0 := mul_ne_zero h (by norm_num)
    exact ⟨by simp [high_close_frac, safeDiv, h],
      by simp [low_close_frac, safeDiv, h], by simp [bb_squeeze, safeDiv, h2]⟩
  · exact ⟨by simp [pct_change_div, safeDiv, h],
      by simp [log_return_arg, safeDiv, h]⟩
  · simp [predicted_return_div, safeDiv, h]

/-- C5 (witness): concrete guarded and unguarded divisions that succeed. -/
theorem C5_division_guards_amended_witness :
    ((1 : ℚ) + eps ≠ 0) ∧ (close_position 1 2 1).isSome ∧
      (high_low_range 2 1).isSome ∧ (bb_squeeze 1 2).isSome ∧
      (pct_change_div 1 2).isSome ∧ (predicted_return_div 5 2).isSome :=
  ⟨(C5_division_guards_amended 1 2 1 1 0 2 5 1 2 1).1 (by norm_num),
   (C5_division_guards_amended 1 2 1 1 0 2 5 1 2 1).2.1 (by norm_num),
   (C5_division_guards_amended 1 2 1 1 0 2 5 1 2 1).2.2.2.1 (by norm_num),
   ((C5_division_guards_amended 1 2 1 2 0 2 5 1 2 1).2.2.2.2.1 (by norm_num)).2.2,
   ((C5_division_guards_amended 1 2 1 1 0 2 5 1 2 1).2.2.2.2.2.1 (by norm_num)).1,
   (C5_division_guards_amended 1 2 1 1 0 2 5 1 2 1).2.2.2.2.2.2 (by norm_num)⟩

/-- C10 (implicit floor): with input confidence at most 95, the confidence
returned by generate_signal lies in [15,95] in both variants (the final
`max(15, ·)` is applied on every branch), and on the neutral HOLD path the
returned confidence is exactly `max(15, confidence·0.6)`. -/
theorem C10_signal_floor (pr conf rsi vol : ℚ) (regime : Regime)
    (h : conf ≤ 95) :
    (15 ≤ (generate_signal pr conf rsi vol regime).confidence ∧
      (generate_signal pr conf rsi vol regime).confidence ≤ 95) ∧
    (15 ≤ (generate_signal_tab pr conf rsi vol regime).confidence ∧
      (generate_signal_tab pr conf rsi vol regime).confidence ≤ 95) ∧
    (¬(pr > 1.2 + vol * 100 * 0.4) → ¬(pr < -1.2 - vol * 100 * 0.4) →
      (generate_signal pr conf rsi vol regime).confidence = max 15 (conf * 0.6) ∧
      (generate_signal_tab pr conf rsi vol regime).confidence = max 15 (conf * 0.6)) := by
  refine ⟨generate_signal_conf_bounds pr conf rsi vol regime h,
    generate_signal_tab_conf_bounds pr conf rsi vol regime h, fun h1 h2 => ⟨?_, ?_⟩⟩
  · rw [generate_signal_conf_eq, if_neg h1, if_neg h2]
  · rw [generate_signal_tab_conf_eq, if_neg h1, if_neg h2]

/-- C10 (witness): the neutral HOLD path at a concrete input. -/
theorem C10_signal_floor_witness :
    (generate_signal 0 50 50 0 .Bull).confidence = max 15 (50 * 0.6) ∧
      (generate_signal_tab 0 50 50 0 .Bull).confidence = max 15 (50 * 0.6) :=
  (C10_signal_floor 0 50 50 0 .Bull (by norm_num)).2.2 (by norm_num) (by norm_num)

theorem mem_zipWith {α β γ : Type} {f : α → β → γ} :
    ∀ {as : List α} {bs : List β} {x : γ},
      x ∈ List.zipWith f as bs → ∃ a b, a ∈ as ∧ b ∈ bs ∧ x = f a b := by
  intro as
  induction as with
  | nil => intro bs x hx; simp at hx
  | cons a as ih =>
    intro bs x hx
    cases bs with
    | nil => simp at hx
    | cons b bs =>
      rw [List.zipWith_cons_cons] at hx
      rcases List.mem_cons.mp hx with h | h
      · exact ⟨a, b, List.mem_cons_self _ _, List.mem_cons_self _ _, h⟩
      · obtain ⟨a2, b2, ha, hbm, hx2⟩ := ih h
        exact ⟨a2, b2, List.mem_cons_of_mem _ ha, List.mem_cons_of_mem _ hbm, hx2⟩

theorem windowSlice_subset {w i : ℕ} {xs : List ℚ} {x : ℚ}
    (hx : x ∈ windowSlice w xs i) : x ∈ xs :=
  List.mem_of_mem_take (List.mem_of_mem_drop hx)

theorem windowSlice_length {w i : ℕ} {xs : List ℚ} (hi : i < xs.length) :
    (windowSlice w xs i).length = i + 1 - (i + 1 - w) := by
  unfold windowSlice
  rw [List.length_drop, List.length_take]
  omega

theorem windowSlice_ne_nil {w i : ℕ} {xs : List ℚ} (hw : 1 ≤ w)
    (hi : i < xs.length) : windowSlice w xs i ≠ [] := by
  have h := windowSlice_length (w := w) hi
  intro hnil
  rw [hnil] at h
  simp at h
  omega

theorem listMean_le {xs : List ℚ} {b : ℚ} (hne : xs ≠ []) (h : ∀ x ∈ xs, x ≤ b) :
    listMean xs ≤ b := by
  have hlen : 0 < (xs.length : ℚ) := by
    exact_mod_cast List.length_pos.mpr hne
  unfold listMean
  rw [div_le_iff hlen]
  calc xs.sum ≤ xs.length • b := List.sum_le_card_nsmul xs b h
    _ = b * xs.length := by rw [nsmul_eq_mul]; ring

theorem le_listMean {xs : List ℚ} {a : ℚ} (hne : xs ≠ []) (h : ∀ x ∈ xs, a ≤ x) :
    a ≤ listMean xs := by
  have hlen : 0 < (xs.length : ℚ) := by
    exact_mod_cast List.length_pos.mpr hne
  unfold listMean
  rw [le_div_iff hlen]
  calc a * xs.length = xs.length • a := by rw [nsmul_eq_mul]; ring
    _ ≤ xs.sum := List.card_nsmul_le_sum xs a h

theorem rollingMean_le {w : ℕ} {xs : List ℚ} {b : ℚ} (hw : 1 ≤ w)
    (h : ∀ x ∈ xs, x ≤ b) : ∀ y ∈ rollingMean w xs, y ≤ b := by
  intro y hy
  obtain ⟨i, hir, rfl⟩ := List.mem_map.mp hy
  have hi : i < xs.length := List.mem_range.mp hir
  exact listMean_le (windowSlice_ne_nil hw hi)
    (fun x hx => h x (windowSlice_subset hx))

theorem le_rollingMean {w : ℕ} {xs : List ℚ} {a : ℚ} (hw : 1 ≤ w)
    (h : ∀ x ∈ xs, a ≤ x) : ∀ y ∈ rollingMean w xs, a ≤ y := by
  intro y hy
  obtain ⟨i, hir, rfl⟩ := List.mem_map.mp hy
  have hi : i < xs.length := List.mem_range.mp hir
  exact le_listMean (windowSlice_ne_nil hw hi)
    (fun x hx => h x (windowSlice_subset hx))

theorem foldl_min_le_init (t : List ℚ) : ∀ a : ℚ, List.foldl min a t ≤ a := by
  induction t with
  | nil => intro a; simp
  | cons b t ih =>
    intro a
    rw [List.foldl_cons]
    exact le_trans (ih (min a b)) (min_le_left _ _)

theorem foldl_min_le_mem {x : ℚ} :
    ∀ {t : List ℚ}, x ∈ t → ∀ a : ℚ, List.foldl min a t ≤ x := by
  intro t
  induction t with
  | nil => intro hx; simp at hx
  | cons b t ih =>
    intro hx a
    rw [List.foldl_cons]
    rcases List.mem_cons.mp hx with h | h
    · subst h
      exact le_trans (foldl_min_le_init t (min a x)) (min_le_right _ _)
    · exact ih h (min a b)

theorem init_le_foldl_max (t : List ℚ) : ∀ a : ℚ, a ≤ List.foldl max a t := by
  induction t with
  | nil => intro a; simp
  | cons b t ih =>
    intro a
    rw [List.foldl_cons]
    exact le_trans (le_max_left _ _) (ih (max a b))

theorem mem_le_foldl_max {x : ℚ} :
    ∀ {t : List ℚ}, x ∈ t → ∀ a : ℚ, x ≤ List.foldl max a t := by
  intro t
  induction t with
  | nil => intro hx; simp at hx
  | cons b t ih =>
    intro hx a
    rw [List.foldl_cons]
    rcases List.mem_cons.mp hx with h | h
    · subst h
      exact le_trans (le_max_right _ _) (init_le_foldl_max t (max a x))
    · exact ih h (max a b)

theorem listMin_le {xs : List ℚ} {x : ℚ} (hx : x ∈ xs) : listMin xs ≤ x := by
  cases xs with
  | nil => simp at hx
  | cons b t =>
    unfold listMin
    rcases List.mem_cons.mp hx with h | h
    · subst h
      exact foldl_min_le_init t x
    · exact foldl_min_le_mem h b

theorem le_listMax {xs : List ℚ} {x : ℚ} (hx : x ∈ xs) : x ≤ listMax xs := by
  cases xs with
  | nil => simp at hx
  | cons b t =>
    unfold listMax
    rcases List.mem_cons.mp hx with h | h
    · subst h
      exact init_le_foldl_max t x
    · exact mem_le_foldl_max h b

theorem getD_mem_windowSlice {w i : ℕ} {xs : List ℚ} (hw : 1 ≤ w)
    (hi : i < xs.length) : xs.getD i 0 ∈ windowSlice w xs i := by
  have hlen : (windowSlice w xs i).length = i + 1 - (i + 1 - w) :=
    windowSlice_length hi
  have hj : i - (i + 1 - w) < (windowSlice w xs i).length := by omega
  have hx : (windowSlice w xs i)[i - (i + 1 - w)] = xs[i] := by
    unfold windowSlice
    rw [List.getElem_drop, List.getElem_take]
    congr 1
    omega
  have hmem := List.getElem_mem hj
  rw [hx] at hmem
  rw [List.getD_eq_getElem xs 0 hi]
  exact hmem

theorem gains_nonneg (prices : List ℚ) : ∀ x ∈ gains prices, 0 ≤ x := by
  intro x hx
  cases prices with
  | nil => simp [gains] at hx
  | cons p ps =>
    unfold gains at hx
    rcases List.mem_cons.mp hx with h | h
    · simp [h]
    · obtain ⟨a, b, _, _, rfl⟩ := mem_zipWith h
      split
      · linarith [‹b - a > 0›]
      · exact le_refl 0

theorem losses_nonneg (prices : List ℚ) : ∀ x ∈ losses prices, 0 ≤ x := by
  intro x hx
  cases prices with
  | nil => simp [losses] at hx
  | cons p ps =>
    unfold losses at hx
    rcases List.mem_cons.mp hx with h | h
    · simp [h]
    · obtain ⟨a, b, _, _, rfl⟩ := mem_zipWith h
      split
      · linarith [‹b - a < 0›]
      · exact le_refl 0

theorem eps_pos : (0 : ℚ) < eps := by norm_num [eps]

theorem calculate_rsi_range {period : ℕ} (hp : 1 ≤ period) (prices : List ℚ) :
    ∀ x ∈ calculate_rsi period prices, 0 ≤ x ∧ x ≤ 100 := by
  intro x hx
  obtain ⟨g, l, hg, hl, rfl⟩ := mem_zipWith hx
  have hg0 : 0 ≤ g := le_rollingMean hp (gains_nonneg prices) g hg
  have hl0 : 0 ≤ l := le_rollingMean hp (losses_nonneg prices) l hl
  have hle : (0 : ℚ) < l + eps := by linarith [eps_pos]
  have hrs : 0 ≤ g / (l + eps) := div_nonneg hg0 (le_of_lt hle)
  have h1 : (0 : ℚ) < 1 + g / (l + eps) := by linarith
  constructor
  · have h2 : 100 / (1 + g / (l + eps)) ≤ 100 := by
      rw [div_le_iff h1]
      linarith
    linarith
  · have h3 : 0 < 100 / (1 + g / (l + eps)) := div_pos (by norm_num) h1
    linarith

theorem calculate_stochastic_k_range {period : ℕ} (hp : 1 ≤ period)
    (prices : List ℚ) :
    ∀ x ∈ calculate_stochastic_k period prices, 0 ≤ x ∧ x ≤ 100 := by
  intro x hx
  obtain ⟨i, hir, rfl⟩ := List.mem_map.mp hx
  have hi : i < prices.length := List.mem_range.mp hir
  have hmem : prices.getD i 0 ∈ windowSlice period prices i :=
    getD_mem_windowSlice hp hi
  have hmin : listMin (windowSlice period prices i) ≤ prices.getD i 0 :=
    listMin_le hmem
  have hmax : prices.getD i 0 ≤ listMax (windowSlice period prices i) :=
    le_listMax hmem
  have hd : (0 : ℚ) < listMax (windowSlice period prices i) -
      listMin (windowSlice period prices i) + eps := by
    linarith [eps_pos]
  constructor
  · exact div_nonneg (by linarith) (le_of_lt hd)
  · rw [div_le_iff hd]
    linarith [eps_pos, hmax]

theorem calculate_stochastic_d_range {period : ℕ} (hp : 1 ≤ period)
    (prices : List ℚ) :
    ∀ x ∈ calculate_stochastic_d period prices, 0 ≤ x ∧ x ≤ 100 := by
  intro x hx
  unfold calculate_stochastic_d at hx
  exact ⟨le_rollingMean (by norm_num)
      (fun y hy => (calculate_stochastic_k_range hp prices y hy).1) x hx,
    rollingMean_le (by norm_num)
      (fun y hy => (calculate_stochastic_k_range hp prices y hy).2) x hx⟩

theorem true_range_nonneg {bars : List Bar} (hb : ∀ b ∈ bars, b.low ≤ b.high) :
    ∀ x ∈ true_range bars, 0 ≤ x := by
  intro x hx
  cases bars with
  | nil => simp [true_range] at hx
  | cons b bs =>
    unfold true_range at hx
    rcases List.mem_cons.mp hx with h | h
    · rw [h]
      have := hb b (List.mem_cons_self _ _)
      linarith
    · obtain ⟨p, c, _, _, rfl⟩ := mem_zipWith h
      calc (0 : ℚ) ≤ |c.high - p.close| := abs_nonneg _
        _ ≤ max |c.high - p.close| |c.low - p.close| := le_max_left _ _
        _ ≤ max (c.high - c.low) (max |c.high - p.close| |c.low - p.close|) :=
            le_max_right _ _

theorem plus_dm_nonneg (bars : List Bar) : ∀ x ∈ plus_dm bars, 0 ≤ x := by
  intro x hx
  cases bars with
  | nil => simp [plus_dm] at hx
  | cons b bs =>
    unfold plus_dm at hx
    rcases List.mem_cons.mp hx with h | h
    · simp [h]
    · obtain ⟨p, c, _, _, rfl⟩ := mem_zipWith h
      split
      · linarith [(‹c.high - p.high > p.low - c.low ∧ c.high - p.high > 0›).2]
      · exact le_refl 0

theorem minus_dm_nonneg (bars : List Bar) : ∀ x ∈ minus_dm bars, 0 ≤ x := by
  intro x hx
  cases bars with
  | nil => simp [minus_dm] at hx
  | cons b bs =>
    unfold minus_dm at hx
    rcases List.mem_cons.mp hx with h | h
    · simp [h]
    · obtain ⟨p, c, _, _, rfl⟩ := mem_zipWith h
      split
      · linarith [(‹p.low - c.low > c.high - p.high ∧ p.low - c.low > 0›).2]
      · exact le_refl 0

theorem calculate_atr_nonneg {period : ℕ} (hp : 1 ≤ period) {bars : List Bar}
    (hb : ∀ b ∈ bars, b.low ≤ b.high) :
    ∀ a ∈ calculate_atr period bars, 0 ≤ a := by
  intro a ha
  exact le_rollingMean hp (true_range_nonneg hb) a ha

theorem di_nonneg {period : ℕ} (hp : 1 ≤ period) {bars : List Bar}
    (hb : ∀ b ∈ bars, b.low ≤ b.high) (dm : List Bar → List ℚ)
    (hdm : ∀ x ∈ dm bars, 0 ≤ x) :
    ∀ p ∈ List.zipWith (fun m a => 100 * m / (a + eps))
      (rollingMean period (dm bars)) (calculate_atr period bars), 0 ≤ p := by
  intro p hpm
  obtain ⟨m, a, hm, ha, rfl⟩ := mem_zipWith hpm
  have hm0 : 0 ≤ m := le_rollingMean hp hdm m hm
  have ha0 : 0 ≤ a := calculate_atr_nonneg hp hb a ha
  have hd : (0 : ℚ) < a + eps := by linarith [eps_pos]
  exact div_nonneg (mul_nonneg (by norm_num) hm0) (le_of_lt hd)

theorem calculate_adx_range {period : ℕ} (hp : 1 ≤ period) {bars : List Bar}
    (hb : ∀ b ∈ bars, b.low ≤ b.high) :
    ∀ x ∈ calculate_adx period bars, 0 ≤ x ∧ x ≤ 100 := by
  intro x hx
  simp only [calculate_adx] at hx
  have hpdi := di_nonneg hp hb plus_dm (plus_dm_nonneg bars)
  have hmdi := di_nonneg hp hb minus_dm (minus_dm_nonneg bars)
  have hdx : ∀ d ∈ List.zipWith (fun p m => 100 * |p - m| / (p + m + eps))
      (List.zipWith (fun m a => 100 * m / (a + eps))
        (rollingMean period (plus_dm bars)) (calculate_atr period bars))
      (List.zipWith (fun m a => 100 * m / (a + eps))
        (rollingMean period (minus_dm bars)) (calculate_atr period bars)),
      0 ≤ d ∧ d ≤ 100 := by
    intro d hd
    obtain ⟨p, m, hpm, hmm, rfl⟩ := mem_zipWith hd
    have hp0 : 0 ≤ p := hpdi p hpm
    have hm0 : 0 ≤ m := hmdi m hmm
    have habs : |p - m| ≤ p + m := abs_le.mpr ⟨by linarith, by linarith⟩
    have hden : (0 : ℚ) < p + m + eps := by linarith [eps_pos]
    constructor
    · exact div_nonneg (mul_nonneg (by norm_num) (abs_nonneg _)) (le_of_lt hden)
    · rw [div_le_iff hden]
      linarith [habs, eps_pos]
  exact ⟨le_rollingMean hp (fun y hy => (hdx y hy).1) x hx,
    rollingMean_le hp (fun y hy => (hdx y hy).2) x hx⟩

theorem getD_range_50 {l : List ℚ} (h : ∀ x ∈ l, 0 ≤ x ∧ x ≤ 100) (i : ℕ) :
    0 ≤ l.getD i 50 ∧ l.getD i 50 ≤ 100 := by
  by_cases hi : i < l.length
  · rw [List.getD_eq_getElem l 50 hi]
    exact h _ (List.getElem_mem hi)
  · rw [List.getD_eq_default]
    · norm_num
    · omega

/-- C6 (counterexample): on a series whose first bar has High < Low the first
true range is negative, the smoothed ATR goes negative, and ADX leaves [0,100]:
on `cexBars` the second ADX value is negative. -/
theorem C6_adx_out_of_range_cex :
    (calculate_adx 14 cexBars).getD 1 0 < 0 ∧ 1 < (calculate_adx 14 cexBars).length := by
  have hr2 : List.range 2 = [0, 1] := rfl
  have hr1 : List.range 1 = [0] := rfl
  constructor
  · norm_num [calculate_adx, calculate_atr, rollingMean, listMean, windowSlice,
      true_range, plus_dm, minus_dm, eps, cexBars, hr2, hr1]
    rw [abs_of_nonneg (by norm_num)]
    norm_num
  · simp [calculate_adx, calculate_atr, rollingMean, List.length_zipWith,
      true_range, plus_dm, minus_dm, cexBars]

/-- C6 (amended): for every price series, every RSI value (any period ≥ 1,
covering 5/14/21) and every Stochastic %K/%D value lies in [0,100]
unconditionally, and every ADX value lies in [0,100] provided each bar has
Low ≤ High; positions outside the computed range take the neutral default 50,
also in [0,100].  (With `min_periods=1` no produced value is NaN, so the
source's `.fillna(50)` never fires.) -/
theorem C6_indicator_range_amended (period : ℕ) (hp : 1 ≤ period)
    (prices : List ℚ) (bars : List Bar) (hb : ∀ b ∈ bars, b.low ≤ b.high)
    (i : ℕ) :
    (0 ≤ (calculate_rsi period prices).getD i 50 ∧
      (calculate_rsi period prices).getD i 50 ≤ 100) ∧
    (0 ≤ (calculate_stochastic_k 14 prices).getD i 50 ∧
      (calculate_stochastic_k 14 prices).getD i 50 ≤ 100) ∧
    (0 ≤ (calculate_stochastic_d 14 prices).getD i 50 ∧
      (calculate_stochastic_d 14 prices).getD i 50 ≤ 100) ∧
    (0 ≤ (calculate_adx 14 bars).getD i 50 ∧
      (calculate_adx 14 bars).getD i 50 ≤ 100) :=
  ⟨getD_range_50 (calculate_rsi_range hp prices) i,
   getD_range_50 (calculate_stochastic_k_range (by norm_num) prices) i,
   getD_range_50 (calculate_stochastic_d_range (by norm_num) prices) i,
   getD_range_50 (calculate_adx_range (by norm_num) hb) i⟩

/-- C6 (witness): the bounds at a concrete series and index. -/
theorem C6_indicator_range_amended_witness :
    (0 ≤ (calculate_rsi 14 [(1 : ℚ), 2]).getD 0 50 ∧
      (calculate_rsi 14 [(1 : ℚ), 2]).getD 0 50 ≤ 100) ∧
    (0 ≤ (calculate_stochastic_k 14 [(1 : ℚ), 2]).getD 0 50 ∧
      (calculate_stochastic_k 14 [(1 : ℚ), 2]).getD 0 50 ≤ 100) ∧
    (0 ≤ (calculate_stochastic_d 14 [(1 : ℚ), 2]).getD 0 50 ∧
      (calculate_stochastic_d 14 [(1 : ℚ), 2]).getD 0 50 ≤ 100) ∧
    (0 ≤ (calculate_adx 14 [wBar]).getD 0 50 ∧
      (calculate_adx 14 [wBar]).getD 0 50 ≤ 100) :=
  C6_indicator_range_amended 14 (by norm_num) [1, 2] [wBar]
    (by intro b hb; simp [wBar] at hb; simp [hb]) 0

/-- C8: the regime detector of both variants labels row i Bull exactly when the
trailing 252-day return exceeds 0.10, Bear exactly when it is below -0.10, and
Sideways otherwise (warm-up rows, whose pct_change is NaN filled with 0, are
Sideways): the sequential column-masking implementation equals the
specification classifier. -/
theorem C8_regime_eq_spec (closes : List ℚ) :
    detect_market_regime 252 closes = regime_spec 252 closes := by
  simp only [detect_market_regime, regime_spec]
  rw [List.zipWith_map_right, List.zipWith_same, List.zipWith_map_right,
    List.zipWith_same]
  simp only [pct_change_n]
  rw [List.map_map]
  apply List.map_congr_left
  intro i hi
  simp only [Function.comp]
  by_cases h : 252 ≤ i
  · simp only [if_pos h]
    split_ifs <;> first | rfl | linarith
  · simp only [if_neg h]
    norm_num

theorem lookup_map_pairs (g : String → PredEntry) :
    ∀ (ts : List String) (t : String), t ∈ ts →
      (ts.map (fun s => (s, g s))).lookup t = some (g t) := by
  intro ts
  induction ts with
  | nil => intro t ht; simp at ht
  | cons a ts ih =>
    intro t ht
    rw [List.map_cons]
    by_cases h : t = a
    · subst h
      simp [List.lookup]
    · rcases List.mem_cons.mp ht with h2 | h2
      · exact absurd h2 h
      · have hba : (t == a) = false := beq_eq_false_iff_ne.mpr h
        rw [List.lookup_cons, hba]
        exact ih t h2

/-- C9: predict_all returns exactly one entry per trained symbol; a symbol
whose predict raises maps to an error entry carrying the symbol and the
message, a symbol whose predict succeeds maps to its record, each entry
depending only on that symbol's own predict outcome; and predict_all is a
total function of the per-symbol outcomes — no exception escapes it. -/
theorem C9_predict_all_spec (predictFn : String → Except String PredictionRecord)
    (tickers : List String) (hnd : tickers.Nodup) :
    ((predict_all predictFn tickers).map Prod.fst = tickers) ∧
    ((predict_all predictFn tickers).map Prod.fst).Nodup ∧
    (∀ t ∈ tickers, (predict_all predictFn tickers).lookup t =
      some (match predictFn t with
            | .ok r => PredEntry.ok r
            | .error e => PredEntry.failure t e)) := by
  have hfst : (predict_all predictFn tickers).map Prod.fst = tickers := by
    unfold predict_all
    simp [Function.comp_def]
  refine ⟨hfst, ?_, ?_⟩
  · rw [hfst]
    exact hnd
  · intro t ht
    exact lookup_map_pairs _ tickers t ht

/-- C9 (witness): a batch where one symbol fails and the other succeeds. -/
theorem C9_predict_all_spec_witness :
    (predict_all
        (fun t => if t = "B" then Except.error "boom" else Except.ok wRec)
        ["A", "B"]).lookup "B" = some (PredEntry.failure "B" "boom") ∧
    (predict_all
        (fun t => if t = "B" then Except.error "boom" else Except.ok wRec)
        ["A", "B"]).lookup "A" = some (PredEntry.ok wRec) := by
  have h := (C9_predict_all_spec
    (fun t => if t = "B" then Except.error "boom" else Except.ok wRec)
    ["A", "B"] (by simp)).2.2
  constructor
  · have hb := h "B" (by simp)
    simpa using hb
  · have ha := h "A" (by simp)
    simpa using ha

theorem generate_signal_reasoning_eq (pr conf rsi vol : ℚ) (regime : Regime) :
    (generate_signal pr conf rsi vol regime).reasoning =
      (if pr > 1.2 + vol * 100 * 0.4 then
        if conf > 40 then
          if pr > (1.2 + vol * 100 * 0.4) * 2 then
            if rsi < 75 then [.upward pr conf, .strongBullish]
            else [.upward pr conf, .strongBullish, .rsiOverbought]
          else
            if rsi < 65 then [.upward pr conf]
            else [.upward pr conf, .rsiElevated]
        else [.weakBullish]
      else if pr < -1.2 - vol * 100 * 0.4 then
        if conf > 40 then
          if pr < (-1.2 - vol * 100 * 0.4) * 2 then
            if rsi > 25 then [.downward pr conf, .strongBearish]
            else [.downward pr conf, .strongBearish, .rsiOversold]
          else
            if rsi > 35 then [.downward pr conf]
            else [.downward pr conf, .rsiDepressed]
        else [.weakBearish]
      else Reason.neutral pr ::
        (match regime with
          | .Bull => [.bullWait]
          | .Bear => [.bearWait]
          | .Sideways => [])) := by
  unfold generate_signal
  dsimp only
  split_ifs <;> rfl

/-- C7: a predict call mutates none of the stored models, data, tabular
scalers or LSTM scalers (its only write is the deterministic feature_cols
recomputation), and an immediately repeated call returns the identical
prediction record and leaves the state fixed. -/
theorem C7_predict_idempotent (featuresOf : List Bar → List ℚ)
    (featureColsOf : List Bar → List String) (volOf : List Bar → ℚ)
    (s : PredictorState) (t : String) (r : PredictionRecord)
    (s1 : PredictorState)
    (h : predict featuresOf featureColsOf volOf s t = some (r, s1)) :
    s1.models = s.models ∧ s1.data_dict = s.data_dict ∧
    s1.scalers = s.scalers ∧ s1.lstm_scalers = s.lstm_scalers ∧
    predict featuresOf featureColsOf volOf s1 t = some (r, s1) := by
  unfold predict at h
  cases hm : s.models t with
  | none => simp [hm] at h
  | some bundle =>
  simp only [hm] at h
  cases hd : s.data_dict t with
  | none => simp [hd] at h
  | some df =>
  simp only [hd] at h
  cases hl : s.lstm_scalers t with
  | none => simp [hl] at h
  | some mm =>
  simp only [hl] at h
  cases hsc : s.scalers t with
  | none => simp [hsc] at h
  | some sc =>
  simp only [hsc] at h
  by_cases he : df.isEmpty = true
  · rw [if_pos he] at h
    simp at h
  · rw [if_neg he] at h
    rw [Option.some.injEq, Prod.mk.injEq] at h
    obtain ⟨hr, hs1⟩ := h
    subst hs1
    refine ⟨rfl, rfl, rfl, rfl, ?_⟩
    unfold predict
    dsimp only
    simp only [hm, hd, hl, hsc, if_neg he]
    rw [Option.some.injEq, Prod.mk.injEq]
    exact ⟨hr, rfl⟩

set_option maxHeartbeats 2000000 in
theorem wPredict_eval :
    predict wFeaturesOf wFeatureColsOf wVolOf wState "A" = some (wRec, wState1) := by
  have hr1 : List.range 1 = [0] := rfl
  have hsb : (Regime.Sideways = Regime.Bull) = False := by simp
  have hsbe : (Regime.Sideways = Regime.Bear) = False := by simp
  norm_num [predict, wState, wState1, wBundle, wBar, wFeaturesOf, wFeatureColsOf,
    wVolOf, wRec, ensemble_spread, calculate_rsi, rollingMean, listMean,
    windowSlice, gains, losses, detect_market_regime, pct_change_n,
    calculate_adx, calculate_atr, true_range, plus_dm, minus_dm,
    calculate_confidence_ensemble, generate_signal_action_eq,
    generate_signal_conf_eq, generate_signal_reasoning_eq, eps,
    max_def, min_def, List.getLastD, hr1, hsb, hsbe]

/-- C7 (witness): on the concrete one-ticker state, a second predict call
returns the same record and the state is fixed, with all scaler maps intact. -/
theorem C7_predict_idempotent_witness :
    wState1.models = wState.models ∧ wState1.data_dict = wState.data_dict ∧
    wState1.scalers = wState.scalers ∧ wState1.lstm_scalers = wState.lstm_scalers ∧
    predict wFeaturesOf wFeatureColsOf wVolOf wState1 "A" = some (wRec, wState1) :=
  C7_predict_idempotent wFeaturesOf wFeatureColsOf wVolOf wState "A" wRec wState1
    wPredict_eval
